import Mathlib

/-!
Verification of `export_ebay_reviews.py`: a shallow embedding of the
paginated fetcher (`fetch_all_feedback`) and the review transformer
(`build_ebay_reviews_export`), with theorems settling the spec's claims.

Modelling conventions:
* Python `None`-able values become `Option`.
* The raw feedback timestamp field of a row is a `TimeVal`: either a parsed
  calendar date, an absent value, or an unparseable blob (what
  `pd.to_datetime(..., errors="coerce")` would turn into `NaT`).
* The eBay Trading client is a function from page number to a result: either
  a `ConnectionError` or a structured page response.  A page response carries
  the `FeedbackDetailArray.FeedbackDetail` field (absent, a single object, or
  a collection) and the raw `PaginationResult.TotalNumberOfPages` string
  (`none` covers both an absent `PaginationResult` and an absent
  `TotalNumberOfPages` key, which the source defaults identically).
* The `while True` loop is given explicit fuel; a `none` result means the
  fuel ran out with the loop still running.
* The two `SystemExit` failures of the transformer ("No feedback rows
  supplied ..." and "No seller feedback with comments after filtering")
  are the spec's `EmptyInputError` and `NoMatchingRowsError`.
-/

/-- A calendar date, the part of a parsed timestamp that the export uses
(`strftime("%d/%m/%Y")` reads only day, month and year). -/
structure Date where
  year : Nat
  month : Nat
  day : Nat
deriving DecidableEq, Repr

/-- The timestamp field of a raw row: a parsed datetime, an absent value, or
a value `pd.to_datetime(..., errors="coerce")` cannot interpret. -/
inductive TimeVal where
  | absent
  | parsed (d : Date)
  | unparseable (s : String)
deriving DecidableEq, Repr

/-- RawFeedbackRow: the dict built per feedback entry in `fetch_all_feedback`
(lines 118-126), also the input row shape of `build_ebay_reviews_export`. -/
structure RawRow where
  comment_text : Option String
  comment_type : Option String
  comment_time : TimeVal
  role : Option String
  item_id : String
  item_title : Option String
  commenting_user : Option String
deriving DecidableEq, Repr

/-- ReviewExportRow: one line of the Judge.me export table (lines 193-203). -/
structure ReviewExportRow where
  title : String
  body : String
  rating : Int
  review_date : String
  reviewer_name : String
  reviewer_email : String
  product_url : String
  picture_urls : String
  product_id : String
  product_handle : String
deriving DecidableEq, Repr

/-- The two `SystemExit` failures of `build_ebay_reviews_export`:
`emptyInput` is raised at line 163 ("No feedback rows supplied ..."),
`noMatchingRows` at line 176 ("No seller feedback with comments after
filtering"). -/
inductive ExportError where
  | emptyInput
  | noMatchingRows
deriving DecidableEq, Repr

instance {ε α : Type} [DecidableEq ε] [DecidableEq α] :
    DecidableEq (Except ε α) := fun x y =>
  match x, y with
  | .ok a, .ok b =>
      if h : a = b then isTrue (by rw [h])
      else isFalse (fun hc => by cases hc; exact h rfl)
  | .error a, .error b =>
      if h : a = b then isTrue (by rw [h])
      else isFalse (fun hc => by cases hc; exact h rfl)
  | .ok _, .error _ => isFalse (fun hc => by cases hc)
  | .error _, .ok _ => isFalse (fun hc => by cases hc)

/-- RATING_MAP (lines 13-17), kept as the dict it is in the source. -/
def RATING_MAP : List (String × Int) :=
  [("Positive", 5), ("Neutral", 3), ("Negative", 1)]

/-- Dict lookup in RATING_MAP, as `df["comment_type"].map(RATING_MAP)` does
per cell: a missing key yields NaN, here `none`. -/
def lookupRating (ct : String) : Option Int :=
  RATING_MAP.lookup ct

/-- The `.map(RATING_MAP)` cell value for one row (line 179): a row whose
`comment_type` is absent (NaN) maps to NaN as well. -/
def ratingOfRow (r : RawRow) : Option Int :=
  match r.comment_type with
  | none => none
  | some ct => lookupRating ct

/-- Model of `pd.to_datetime(value, errors="coerce")` on one cell (line 166): parsed
datetimes pass through, everything else becomes NaT (absent). -/
def pdToDatetimeCoerce : TimeVal → TimeVal
  | .parsed d => .parsed d
  | _ => .absent

/-- Line 166 applied to one row. -/
def coerceRow (r : RawRow) : RawRow :=
  { r with comment_time := pdToDatetimeCoerce r.comment_time }

/-- The boolean mask of lines 169-173: `role == "Seller"` and
`comment_text.notna()` and `comment_type.notna()`.  (pandas `notna` is
presence, not non-emptiness: an empty string is present.) -/
def passesSellerFilter (r : RawRow) : Bool :=
  r.role == some "Seller" && r.comment_text.isSome && r.comment_type.isSome

/-- Lines 179-181: map `comment_type` through RATING_MAP, keep the rows whose
rating is not NaN, and cast the rating to int (already integral here). -/
def mapRatingStage (rs : List RawRow) : List (RawRow × Int) :=
  rs.filterMap (fun r => (ratingOfRow r).map (fun v => (r, v)))

/-- Model of `str.rstrip("/")`: drop every trailing slash (line 187). -/
def rstripSlashes (s : String) : String :=
  ⟨(s.data.reverse.dropWhile (fun c => c == '/')).reverse⟩

/-- Two-digit zero padding, as strftime's `%d` and `%m`. -/
def pad2 (n : Nat) : String :=
  if n < 10 then "0" ++ toString n else toString n

/-- Four-digit zero padding, as strftime's `%Y`. -/
def pad4 (n : Nat) : String :=
  if n < 10 then "000" ++ toString n
  else if n < 100 then "00" ++ toString n
  else if n < 1000 then "0" ++ toString n
  else toString n

/-- Model of `strftime("%d/%m/%Y")` (line 184). -/
def formatDMY (d : Date) : String :=
  pad2 d.day ++ "/" ++ pad2 d.month ++ "/" ++ pad4 d.year

/-- Lines 184-203 for one surviving row `r` (already time-coerced) with its
mapped rating: format the date (NaT strftime gives NaN, then
`.fillna("")` yields the empty string), build the product URL
(`f"{base}/itm/{item_id}" if item_id else ""`), and fill the Judge.me
columns, substituting the empty string for absent values. -/
def buildRow (ebay_base_url : String) (rating : Int) (r : RawRow) :
    ReviewExportRow :=
  { title := r.item_title.getD ""
    body := r.comment_text.getD ""
    rating := rating
    review_date :=
      match r.comment_time with
      | .parsed d => formatDMY d
      | _ => ""
    reviewer_name := r.commenting_user.getD ""
    reviewer_email := ""
    product_url :=
      if r.item_id = "" then ""
      else rstripSlashes ebay_base_url ++ "/itm/" ++ r.item_id
    picture_urls := ""
    product_id := ""
    product_handle := "" }

/-- Lines 166-173 as one stage: coerce every timestamp, then apply the
Seller/comment mask. -/
def filteredRows (rows : List RawRow) : List RawRow :=
  (rows.map coerceRow).filter passesSellerFilter

/-- Model of `build_ebay_reviews_export` (lines 141-205): empty-input check, timestamp
coercion, Seller/comment filter with its emptiness check, rating mapping
(dropping unmapped rows, with no emptiness check after it), then per-row
output construction. -/
def build_ebay_reviews_export (rows : List RawRow)
    (ebay_base_url : String) :
    Except ExportError (List ReviewExportRow) :=
  if rows = [] then .error .emptyInput
  else if filteredRows rows = [] then .error .noMatchingRows
  else .ok ((mapRatingStage (filteredRows rows)).map
    (fun p => buildRow ebay_base_url p.2 p.1))

/-- One feedback entry dict as delivered inside `FeedbackDetailArray`
(the `fb.get(...)` keys of lines 105-125). -/
structure FeedbackEntry where
  commentText : Option String
  commentType : Option String
  commentTime : Option String
  role : Option String
  itemID : Option String
  itemTitle : Option String
  commentingUser : Option String
deriving DecidableEq, Repr

/-- The `FeedbackDetailArray.FeedbackDetail` field of a page response:
missing (line 96 defaults it to `[]`), a single object (the API's singular
shape, line 101), or a collection. -/
inductive DetailField where
  | absent
  | single (e : FeedbackEntry)
  | listOf (es : List FeedbackEntry)
deriving DecidableEq, Repr

/-- A successful `GetFeedback` page response, reduced to the two fields the
fetcher reads: the detail field and the raw `TotalNumberOfPages` value
(`none` when `PaginationResult` is absent or falsy, or the key is missing;
both default to the current page at line 130). -/
structure PageResponse where
  feedbackDetail : DetailField
  totalNumberOfPages : Option String
deriving DecidableEq, Repr

/-- What `client.execute("GetFeedback", ...)` does for one page: raise
`ConnectionError` (caught at line 84) or return a response. -/
inductive ClientResult where
  | connError
  | ok (resp : PageResponse)
deriving DecidableEq, Repr

/-- The exception of `int()` on a non-numeric string (line 130); it is not a
`ConnectionError`, so nothing in `fetch_all_feedback` catches it. -/
inductive PyExn where
  | valueError (s : String)
deriving DecidableEq, Repr

/-- Lines 96-102: extract the detail list, treating a single object as a
one-element collection.  (The `if not details` emptiness test of line 98
coincides with emptiness of this list: a single detail object is a
non-empty dict.) -/
def detailsOf : DetailField → List FeedbackEntry
  | .absent => []
  | .single e => [e]
  | .listOf es => es

/-- Decimal value of a digit character. -/
def digitVal (c : Char) : Nat := c.toNat - '0'.toNat

/-- A non-empty all-digit character sequence read as a decimal number. -/
def parseDigitsNat (ds : List Char) : Option Nat :=
  if ds = [] then none
  else if ds.all Char.isDigit then
    some (ds.foldl (fun n c => n * 10 + digitVal c) 0)
  else none

/-- Python `int()` on a string (line 130): an optional leading minus sign
over decimal digits, anything else raises, here `none`.  (`int()`
additionally tolerates surrounding whitespace, a leading plus sign and
digit-group underscores; no value in this development exercises that
fringe.) -/
def parsePyInt (s : String) : Option Int :=
  match s.data with
  | '-' :: ds => (parseDigitsNat ds).map (fun n => -(n : Int))
  | ds => (parseDigitsNat ds).map (fun n => (n : Int))

/-- Lines 104-127: one `FeedbackDetail` entry to a raw row.  The timestamp
string is handed to `dateutil.parser.parse` (modelled by the `parse`
parameter, since `dateutil` is an external library) only when it is truthy;
a parse failure is swallowed by the try/except and yields `None`. -/
def rawRowOfEntry (parse : String → Option Date) (fb : FeedbackEntry) :
    RawRow :=
  { comment_text := fb.commentText
    comment_type := fb.commentType
    comment_time :=
      match fb.commentTime with
      | none => .absent
      | some s =>
        if s = "" then .absent
        else
          match parse s with
          | some d => .parsed d
          | none => .absent
    role := fb.role
    item_id := match fb.itemID with | none => "" | some s => s
    item_title := fb.itemTitle
    commenting_user := fb.commentingUser }

/-- The raw rows one page contributes (empty when the client errors on that
page, since the loop then appends nothing). -/
def pageRawRows (parse : String → Option Date) (client : Nat → ClientResult)
    (page : Nat) : List RawRow :=
  match client page with
  | .connError => []
  | .ok resp => (detailsOf resp.feedbackDetail).map (rawRowOfEntry parse)

/-- The `while True` loop of lines 71-136 with explicit fuel, from page
`page` with accumulator `acc`.  `none` means the fuel ran out with the loop
still running; `some (.ok rows)` is a normal return of `all_rows`;
`some (.error e)` is the uncaught `int()` exception escaping the function
(the accumulated rows are lost). -/
def fetchLoop (parse : String → Option Date) (client : Nat → ClientResult) :
    Nat → Nat → List RawRow → Option (Except PyExn (List RawRow))
  | 0, _, _ => none
  | fuel + 1, page, acc =>
    match client page with
    | .connError => some (.ok acc)
    | .ok resp =>
      let details := detailsOf resp.feedbackDetail
      if details = [] then some (.ok acc)
      else
        let acc2 := acc ++ details.map (rawRowOfEntry parse)
        match resp.totalNumberOfPages with
        | none => some (.ok acc2)
        | some s =>
          match parsePyInt s with
          | none => some (.error (.valueError s))
          | some total =>
            if (page : Int) ≥ total then some (.ok acc2)
            else fetchLoop parse client fuel (page + 1) acc2

/-- Model of `fetch_all_feedback` (lines 59-138): run the loop from page 1 with an
empty accumulator.  The `feedback_type` and `entries_per_page` arguments
only shape the request parameters, which the abstract client already
receives via the page number, so they do not appear here. -/
def fetch_all_feedback (parse : String → Option Date)
    (client : Nat → ClientResult) (fuel : Nat) :
    Option (Except PyExn (List RawRow)) :=
  fetchLoop parse client fuel 1 []


/-- A Seller row with a comment whose `comment_type` is outside RATING_MAP. -/
def unknownTypeRow : RawRow :=
  { comment_text := some "ok"
    comment_type := some "Withdrawn"
    comment_time := .absent
    role := some "Seller"
    item_id := ""
    item_title := none
    commenting_user := none }

/-- A Buyer row: excluded by the Seller/comment filter whatever its comment. -/
def buyerRow : RawRow :=
  { comment_text := some "nice buyer"
    comment_type := some "Positive"
    comment_time := .absent
    role := some "Buyer"
    item_id := "9"
    item_title := some "Gadget"
    commenting_user := some "bob" }

/-- A Seller row with a Neutral comment whose raw timestamp pandas cannot
interpret. -/
def sellerNoTimeRow : RawRow :=
  { comment_text := some "fine"
    comment_type := some "Neutral"
    comment_time := .unparseable "not a date"
    role := some "Seller"
    item_id := "42"
    item_title := none
    commenting_user := some "carol" }

/-- Page `k` succeeds with a non-empty detail list and declares, via a
parseable `TotalNumberOfPages`, a total strictly beyond `k`, so the loop
moves past it. -/
def continuesPast (client : Nat → ClientResult) (k : Nat) : Prop :=
  ∃ resp, client k = .ok resp ∧ detailsOf resp.feedbackDetail ≠ [] ∧
    ∃ s t, resp.totalNumberOfPages = some s ∧ parsePyInt s = some t ∧
      (k : Int) < t

/-- A feedback entry used by the concrete clients below. -/
def entry1 : FeedbackEntry :=
  { commentText := some "Great!"
    commentType := some "Positive"
    commentTime := none
    role := some "Seller"
    itemID := some "1"
    itemTitle := some "Widget"
    commentingUser := some "alice" }

/-- A client that serves two identical pages declaring nine total pages and
raises `ConnectionError` from page 3 on. -/
def c2client : Nat → ClientResult := fun k =>
  if k < 3 then
    .ok { feedbackDetail := .listOf [entry1], totalNumberOfPages := some "9" }
  else .connError

/-- A client whose first page declares the unparseable total "many". -/
def c10client : Nat → ClientResult := fun _ =>
  .ok { feedbackDetail := .listOf [entry1], totalNumberOfPages := some "many" }

/-- A page response with one row declaring two total pages. -/
def c6resp : PageResponse :=
  { feedbackDetail := .listOf [entry1], totalNumberOfPages := some "2" }

/-- A client that always serves one row and declares two total pages. -/
def c6client : Nat → ClientResult := fun _ => .ok c6resp

/-- Two per-page client results that differ at most by packaging a single
detail object as a one-element collection (same pagination metadata). -/
def sameUpToSingleton : ClientResult → ClientResult → Prop
  | .connError, .connError => True
  | .ok r1, .ok r2 =>
      r1.totalNumberOfPages = r2.totalNumberOfPages ∧
      (r1.feedbackDetail = r2.feedbackDetail ∨
       ∃ e, r1.feedbackDetail = .single e ∧ r2.feedbackDetail = .listOf [e])
  | _, _ => False

/-- A client whose only page carries a single detail object. -/
def c7clientA : Nat → ClientResult := fun k =>
  if k = 1 then
    .ok { feedbackDetail := .single entry1, totalNumberOfPages := some "1" }
  else .connError

/-- The same client with the object packaged as a one-element collection. -/
def c7clientB : Nat → ClientResult := fun k =>
  if k = 1 then
    .ok { feedbackDetail := .listOf [entry1], totalNumberOfPages := some "1" }
  else .connError

/-- The decimal string of `10 ^ k`: a one followed by `k` zeros. -/
def oneZeros (k : Nat) : String := ⟨'1' :: List.replicate k '0'⟩

/-- A client that answers every page with one row and a declared total of
`10 ^ page` pages: the declared total always lies strictly ahead of the
page counter. -/
def badClient : Nat → ClientResult := fun k =>
  .ok { feedbackDetail := .listOf [entry1]
        totalNumberOfPages := some (oneZeros k) }

/-- Timestamp coercion touches only `comment_time`, so the Seller/comment
mask is unchanged by it. -/
theorem passesSellerFilter_coerceRow (r : RawRow) :
    passesSellerFilter (coerceRow r) = passesSellerFilter r := rfl

/-- Timestamp coercion touches only `comment_time`, so the rating lookup is
unchanged by it. -/
theorem ratingOfRow_coerceRow (r : RawRow) :
    ratingOfRow (coerceRow r) = ratingOfRow r := rfl

theorem filteredRows_eq_nil (rows : List RawRow)
    (hall : ∀ r ∈ rows, passesSellerFilter r = false) :
    filteredRows rows = [] := by
  apply List.filter_eq_nil_iff.mpr
  intro a ha
  rcases List.mem_map.mp ha with ⟨r, hr, rfl⟩
  simp [passesSellerFilter_coerceRow, hall r hr]

/-- C4: `build_ebay_reviews_export` on the empty sequence fails with
EmptyInputError, and on a non-empty sequence none of whose rows passes the
Seller/comment mask it fails with NoMatchingRowsError. -/
theorem c4_empty_and_unmatched_inputs (base : String) (rows : List RawRow)
    (hne : rows ≠ []) (hall : ∀ r ∈ rows, passesSellerFilter r = false) :
    build_ebay_reviews_export [] base = .error .emptyInput ∧
    build_ebay_reviews_export rows base = .error .noMatchingRows := by
  refine ⟨rfl, ?_⟩
  unfold build_ebay_reviews_export
  rw [if_neg hne, filteredRows_eq_nil rows hall, if_pos rfl]

theorem c4_empty_and_unmatched_inputs_witness :
    ([buyerRow] ≠ ([] : List RawRow)) ∧
    (∀ r ∈ [buyerRow], passesSellerFilter r = false) ∧
    build_ebay_reviews_export [] "https://www.ebay.co.uk" =
      .error .emptyInput ∧
    build_ebay_reviews_export [buyerRow] "https://www.ebay.co.uk" =
      .error .noMatchingRows :=
  ⟨by decide, by decide,
   c4_empty_and_unmatched_inputs "https://www.ebay.co.uk" [buyerRow]
     (by decide) (by decide)⟩

/-- C8: the golden example: one Seller row with a Positive comment on item
123 "Widget" by alice at 2024-03-05 maps, under base URL
https://www.ebay.co.uk, to exactly one output row with rating 5, date
05/03/2024, the item URL, and the four always-empty fields. -/
theorem c8_golden_example :
    build_ebay_reviews_export
      [{ comment_text := some "Great!"
         comment_type := some "Positive"
         comment_time := .parsed ⟨2024, 3, 5⟩
         role := some "Seller"
         item_id := "123"
         item_title := some "Widget"
         commenting_user := some "alice" }] "https://www.ebay.co.uk" =
    .ok [{ title := "Widget", body := "Great!", rating := 5
           review_date := "05/03/2024", reviewer_name := "alice"
           reviewer_email := "", product_url := "https://www.ebay.co.uk/itm/123"
           picture_urls := "", product_id := "", product_handle := "" }] := by
  decide

/-- C1 counterexample: a single Seller row with a comment whose
`comment_type` is "Withdrawn" survives the Seller/comment filter, nothing
survives the rating mapping, and `build_ebay_reviews_export` returns an
empty export rather than failing with NoMatchingRowsError: the source only
checks emptiness before the rating mapping (line 175), never after it. -/
theorem c1_counterexample :
    build_ebay_reviews_export [unknownTypeRow] "https://www.ebay.co.uk" =
      .ok [] ∧
    build_ebay_reviews_export [unknownTypeRow] "https://www.ebay.co.uk" ≠
      .error .noMatchingRows := by
  decide

/-- C1 amended: when the input is non-empty, at least one row survives the
Seller/comment filter, and every surviving row's `comment_type` is outside
RATING_MAP, `build_ebay_reviews_export` returns an empty export (ok with
zero rows); NoMatchingRowsError is raised only when nothing survives the
Seller/comment filter itself. -/
theorem c1_amended_unknown_types_give_empty_export (rows : List RawRow)
    (base : String) (hne : rows ≠ []) (hsurv : filteredRows rows ≠ [])
    (hunk : ∀ r ∈ filteredRows rows, ratingOfRow r = none) :
    build_ebay_reviews_export rows base = .ok [] := by
  unfold build_ebay_reviews_export
  rw [if_neg hne, if_neg hsurv]
  have h0 : mapRatingStage (filteredRows rows) = [] := by
    apply List.filterMap_eq_nil_iff.mpr
    intro a ha
    rw [hunk a ha]
    rfl
  rw [h0]
  rfl

theorem c1_amended_unknown_types_give_empty_export_witness :
    filteredRows [unknownTypeRow] ≠ [] ∧
    (∀ r ∈ filteredRows [unknownTypeRow], ratingOfRow r = none) ∧
    build_ebay_reviews_export [unknownTypeRow] "https://www.ebay.co.uk" =
      .ok [] :=
  ⟨by decide, by decide,
   c1_amended_unknown_types_give_empty_export [unknownTypeRow]
     "https://www.ebay.co.uk" (by decide) (by decide) (by decide)⟩

/-- C3: at the rating-mapping stage, a row whose `comment_type` is Positive
contributes rating 5, Neutral 3, Negative 1, and a row with any other
`comment_type` is excluded with no default rating. -/
theorem c3_rating_map (rs : List RawRow) (r : RawRow) (hr : r ∈ rs) :
    (r.comment_type = some "Positive" → (r, 5) ∈ mapRatingStage rs) ∧
    (r.comment_type = some "Neutral" → (r, 3) ∈ mapRatingStage rs) ∧
    (r.comment_type = some "Negative" → (r, 1) ∈ mapRatingStage rs) ∧
    (∀ ct, r.comment_type = some ct →
      ct ∉ ["Positive", "Neutral", "Negative"] →
      ∀ v, (r, v) ∉ mapRatingStage rs) := by
  refine ⟨?_, ?_, ?_, ?_⟩
  · intro h
    exact List.mem_filterMap.mpr
      ⟨r, hr, by rw [ratingOfRow, h]; rfl⟩
  · intro h
    exact List.mem_filterMap.mpr
      ⟨r, hr, by rw [ratingOfRow, h]; rfl⟩
  · intro h
    exact List.mem_filterMap.mpr
      ⟨r, hr, by rw [ratingOfRow, h]; rfl⟩
  · intro ct hct hnot v hmem
    rcases List.mem_filterMap.mp hmem with ⟨a, _, hfa⟩
    rcases Option.map_eq_some'.mp hfa with ⟨w, hw, hpair⟩
    injection hpair with ha hv2
    subst ha
    subst hv2
    simp only [List.mem_cons, List.not_mem_nil, or_false] at hnot
    push_neg at hnot
    have h1 : (ct == "Positive") = false := beq_eq_false_iff_ne.mpr hnot.1
    have h2 : (ct == "Neutral") = false := beq_eq_false_iff_ne.mpr hnot.2.1
    have h3 : (ct == "Negative") = false := beq_eq_false_iff_ne.mpr hnot.2.2
    simp [ratingOfRow, hct, lookupRating, RATING_MAP, List.lookup, h1, h2, h3]
      at hw

theorem c3_rating_map_witness :
    buyerRow ∈ ([buyerRow, unknownTypeRow] : List RawRow) ∧
    (buyerRow, 5) ∈ mapRatingStage [buyerRow, unknownTypeRow] ∧
    ∀ v, (unknownTypeRow, v) ∉ mapRatingStage [buyerRow, unknownTypeRow] :=
  ⟨by decide,
   (c3_rating_map [buyerRow, unknownTypeRow] buyerRow (by decide)).1
     (by decide),
   (c3_rating_map [buyerRow, unknownTypeRow] unknownTypeRow (by decide)).2.2.2
     "Withdrawn" (by decide) (by decide)⟩

/-- C9: every emitted row is a complete ReviewExportRow (the record type
already forces the ten fields, strings plus the integer rating); the four
unavailable columns are always the empty string, the empty string
substitutes for an absent title or user, and a surviving row whose
timestamp is absent or unparseable gets an empty `review_date` rather than
an error. -/
theorem c9_output_fields (rows : List RawRow) (base : String)
    (out : List ReviewExportRow)
    (hok : build_ebay_reviews_export rows base = .ok out) :
    ∀ o ∈ out,
      o.reviewer_email = "" ∧ o.picture_urls = "" ∧ o.product_id = "" ∧
      o.product_handle = "" ∧
      ∃ r ∈ rows, ∃ rat, ratingOfRow r = some rat ∧
        o = buildRow base rat (coerceRow r) ∧
        (r.item_title = none → o.title = "") ∧
        (r.commenting_user = none → o.reviewer_name = "") ∧
        ((r.comment_time = TimeVal.absent ∨
          ∃ s, r.comment_time = TimeVal.unparseable s) →
          o.review_date = "") := by
  unfold build_ebay_reviews_export at hok
  by_cases h1 : rows = []
  · rw [if_pos h1] at hok
    exact Except.noConfusion hok
  rw [if_neg h1] at hok
  by_cases h2 : filteredRows rows = []
  · rw [if_pos h2] at hok
    exact Except.noConfusion hok
  rw [if_neg h2] at hok
  have hout : out =
      (mapRatingStage (filteredRows rows)).map
        (fun p => buildRow base p.2 p.1) := by
    injection hok with h
    exact h.symm
  subst hout
  intro o ho
  rcases List.mem_map.mp ho with ⟨p, hp, rfl⟩
  rcases List.mem_filterMap.mp hp with ⟨a, ha, hfa⟩
  rcases Option.map_eq_some'.mp hfa with ⟨v, hv, hpv⟩
  subst hpv
  rcases List.mem_filter.mp ha with ⟨hamem, hpass⟩
  rcases List.mem_map.mp hamem with ⟨r, hr, rfl⟩
  refine ⟨rfl, rfl, rfl, rfl, r, hr, v,
    by rw [← ratingOfRow_coerceRow]; exact hv, rfl, ?_, ?_, ?_⟩
  · intro htitle
    simp [buildRow, coerceRow, htitle]
  · intro huser
    simp [buildRow, coerceRow, huser]
  · intro htime
    rcases htime with h | ⟨s, h⟩ <;>
      simp [buildRow, coerceRow, pdToDatetimeCoerce, h]

theorem c9_output_fields_witness :
    build_ebay_reviews_export [sellerNoTimeRow] "https://www.ebay.co.uk" =
      .ok [buildRow "https://www.ebay.co.uk" 3 (coerceRow sellerNoTimeRow)] ∧
    (buildRow "https://www.ebay.co.uk" 3 (coerceRow sellerNoTimeRow)).review_date
      = "" ∧
    (buildRow "https://www.ebay.co.uk" 3 (coerceRow sellerNoTimeRow)).reviewer_email
      = "" := by
  have happ := c9_output_fields [sellerNoTimeRow] "https://www.ebay.co.uk"
    [buildRow "https://www.ebay.co.uk" 3 (coerceRow sellerNoTimeRow)]
    (by decide)
    (buildRow "https://www.ebay.co.uk" 3 (coerceRow sellerNoTimeRow))
    (by decide)
  obtain ⟨he, -, -, -, r, hr, rat, -, -, -, -, hd⟩ := happ
  have hrs : r = sellerNoTimeRow := by
    simpa using hr
  subst hrs
  exact ⟨by decide, hd (Or.inr ⟨"not a date", rfl⟩), he⟩

/-- One loop iteration when the client raises `ConnectionError`: the loop
breaks and the accumulated rows are returned (lines 84-93). -/
theorem fetchLoop_connError (parse : String → Option Date)
    (client : Nat → ClientResult) (fuel page : Nat) (acc : List RawRow)
    (h : client page = .connError) :
    fetchLoop parse client (fuel + 1) page acc = some (.ok acc) := by
  simp only [fetchLoop, h]

/-- One loop iteration when the extracted detail list is empty: the loop
breaks and the accumulated rows are returned (lines 98-99). -/
theorem fetchLoop_emptyDetails (parse : String → Option Date)
    (client : Nat → ClientResult) (fuel page : Nat) (acc : List RawRow)
    (resp : PageResponse) (h : client page = .ok resp)
    (hd : detailsOf resp.feedbackDetail = []) :
    fetchLoop parse client (fuel + 1) page acc = some (.ok acc) := by
  simp only [fetchLoop, h, hd]
  rfl

/-- One loop iteration on a successful non-empty page whose pagination
metadata is absent: the total defaults to the current page, so the loop
appends the page's rows and stops (lines 129-134). -/
theorem fetchLoop_defaultTotal (parse : String → Option Date)
    (client : Nat → ClientResult) (fuel page : Nat) (acc : List RawRow)
    (resp : PageResponse) (h : client page = .ok resp)
    (hd : detailsOf resp.feedbackDetail ≠ [])
    (hs : resp.totalNumberOfPages = none) :
    fetchLoop parse client (fuel + 1) page acc =
      some (.ok (acc ++
        (detailsOf resp.feedbackDetail).map (rawRowOfEntry parse))) := by
  simp only [fetchLoop, h, hs]
  rw [if_neg hd]

/-- One loop iteration on a successful non-empty page whose declared total
fails `int()`: the exception escapes and the accumulated rows are lost
(line 130). -/
theorem fetchLoop_badTotal (parse : String → Option Date)
    (client : Nat → ClientResult) (fuel page : Nat) (acc : List RawRow)
    (resp : PageResponse) (s : String) (h : client page = .ok resp)
    (hd : detailsOf resp.feedbackDetail ≠ [])
    (hs : resp.totalNumberOfPages = some s) (hp : parsePyInt s = none) :
    fetchLoop parse client (fuel + 1) page acc =
      some (.error (.valueError s)) := by
  simp only [fetchLoop, h, hs, hp]
  rw [if_neg hd]

/-- One loop iteration on a successful non-empty page whose declared total
is already reached: the loop appends the page's rows and stops
(lines 133-134). -/
theorem fetchLoop_stop (parse : String → Option Date)
    (client : Nat → ClientResult) (fuel page : Nat) (acc : List RawRow)
    (resp : PageResponse) (s : String) (t : Int) (h : client page = .ok resp)
    (hd : detailsOf resp.feedbackDetail ≠ [])
    (hs : resp.totalNumberOfPages = some s) (hp : parsePyInt s = some t)
    (hge : (page : Int) ≥ t) :
    fetchLoop parse client (fuel + 1) page acc =
      some (.ok (acc ++
        (detailsOf resp.feedbackDetail).map (rawRowOfEntry parse))) := by
  simp only [fetchLoop, h, hs, hp]
  rw [if_neg hd, if_pos hge]

/-- One loop iteration on a successful non-empty page whose declared total
lies strictly ahead: the loop appends the page's rows and continues with the
next page number (line 136). -/
theorem fetchLoop_continue (parse : String → Option Date)
    (client : Nat → ClientResult) (fuel page : Nat) (acc : List RawRow)
    (resp : PageResponse) (s : String) (t : Int) (h : client page = .ok resp)
    (hd : detailsOf resp.feedbackDetail ≠ [])
    (hs : resp.totalNumberOfPages = some s) (hp : parsePyInt s = some t)
    (hlt : (page : Int) < t) :
    fetchLoop parse client (fuel + 1) page acc =
      fetchLoop parse client fuel (page + 1)
        (acc ++ (detailsOf resp.feedbackDetail).map (rawRowOfEntry parse)) := by
  simp only [fetchLoop, h, hs, hp]
  rw [if_neg hd, if_neg (not_le.mpr hlt)]

/-- Running the loop across `n` consecutive pages it moves past appends
those pages' rows in page order and leaves the loop at page `p + n`. -/
theorem fetchLoop_advance (parse : String → Option Date)
    (client : Nat → ClientResult) :
    ∀ (n p fuel : Nat) (acc : List RawRow),
    (∀ k, p ≤ k → k < p + n → continuesPast client k) →
    fetchLoop parse client (n + (fuel + 1)) p acc =
      fetchLoop parse client (fuel + 1) (p + n)
        (acc ++ ((List.range' p n).map (pageRawRows parse client)).flatten)
  | 0, p, fuel, acc, h => by
    simp [List.range']
  | m + 1, p, fuel, acc, h => by
    obtain ⟨resp, hcl, hne, s, t, hs, ht, hlt⟩ := h p le_rfl (by omega)
    have h2 : ∀ k, p + 1 ≤ k → k < (p + 1) + m → continuesPast client k := by
      intro k hk1 hk2
      exact h k (by omega) (by omega)
    have hfu : (m + 1) + (fuel + 1) = (m + (fuel + 1)) + 1 := by omega
    rw [hfu,
      fetchLoop_continue parse client (m + (fuel + 1)) p acc resp s t hcl hne
        hs ht hlt,
      fetchLoop_advance parse client m (p + 1) fuel _ h2]
    have e1 : p + 1 + m = p + (m + 1) := by omega
    have e2 :
        (acc ++ (detailsOf resp.feedbackDetail).map (rawRowOfEntry parse)) ++
          ((List.range' (p + 1) m).map (pageRawRows parse client)).flatten =
        acc ++
          ((List.range' p (m + 1)).map (pageRawRows parse client)).flatten := by
      rw [List.append_assoc]
      congr 1
      rw [List.range'_succ p m 1]
      simp [pageRawRows, hcl]
    rw [e1, e2]

/-- C2: when the client succeeds on every page before `N` (each page
non-empty and declaring further pages) and raises `ConnectionError` on page
`N > 1`, `fetch_all_feedback` does not raise: it returns exactly the rows
of pages `1..N-1`, in page order. -/
theorem c2_partial_results (parse : String → Option Date)
    (client : Nat → ClientResult) (N : Nat) (hN : 1 < N)
    (hgood : ∀ k, 1 ≤ k → k < N → continuesPast client k)
    (herr : client N = .connError) (fuel : Nat) (hfuel : N ≤ fuel) :
    fetch_all_feedback parse client fuel =
      some (.ok (((List.range' 1 (N - 1)).map
        (pageRawRows parse client)).flatten)) := by
  unfold fetch_all_feedback
  obtain ⟨m, rfl⟩ : ∃ m, fuel = (N - 1) + (m + 1) := ⟨fuel - N, by omega⟩
  rw [fetchLoop_advance parse client (N - 1) 1 m []
    (fun k hk1 hk2 => hgood k hk1 (by omega))]
  rw [show 1 + (N - 1) = N from by omega]
  rw [fetchLoop_connError parse client m N _ herr]
  simp

theorem c2_partial_results_witness :
    c2client 3 = .connError ∧
    ((List.range' 1 2).map (pageRawRows (fun _ => none) c2client)).flatten =
      [rawRowOfEntry (fun _ => none) entry1,
       rawRowOfEntry (fun _ => none) entry1] ∧
    fetch_all_feedback (fun _ => none) c2client 3 =
      some (.ok (((List.range' 1 2).map
        (pageRawRows (fun _ => none) c2client)).flatten)) := by
  refine ⟨by decide, by decide,
    c2_partial_results (fun _ => none) c2client 3 (by decide) ?_ (by decide)
      3 (by decide)⟩
  intro k hk1 hk2
  refine ⟨{ feedbackDetail := .listOf [entry1],
            totalNumberOfPages := some "9" }, ?_, by decide, "9", 9, rfl,
    by decide, by omega⟩
  show c2client k = _
  unfold c2client
  rw [if_pos (by omega)]

/-- C10: a non-`ConnectionError` failure is not recovered: if the loop
reaches page `N`, that page succeeds with a non-empty detail list, and its
declared `TotalNumberOfPages` does not parse as an integer, the `int()`
exception escapes `fetch_all_feedback` and the rows accumulated from the
earlier pages are not returned (the error carries no rows). -/
theorem c10_int_error_escapes (parse : String → Option Date)
    (client : Nat → ClientResult) (N : Nat) (resp : PageResponse) (s : String)
    (hN : 1 ≤ N)
    (hgood : ∀ k, 1 ≤ k → k < N → continuesPast client k)
    (hresp : client N = .ok resp)
    (hd : detailsOf resp.feedbackDetail ≠ [])
    (hs : resp.totalNumberOfPages = some s)
    (hp : parsePyInt s = none)
    (fuel : Nat) (hfuel : N ≤ fuel) :
    fetch_all_feedback parse client fuel =
      some (.error (.valueError s)) := by
  unfold fetch_all_feedback
  obtain ⟨m, rfl⟩ : ∃ m, fuel = (N - 1) + (m + 1) := ⟨fuel - N, by omega⟩
  rw [fetchLoop_advance parse client (N - 1) 1 m []
    (fun k hk1 hk2 => hgood k hk1 (by omega))]
  rw [show 1 + (N - 1) = N from by omega]
  exact fetchLoop_badTotal parse client m N _ resp s hresp hd hs hp

theorem c10_int_error_escapes_witness :
    parsePyInt "many" = none ∧
    fetch_all_feedback (fun _ => none) c10client 1 =
      some (.error (.valueError "many")) :=
  ⟨by decide,
   c10_int_error_escapes (fun _ => none) c10client 1
     { feedbackDetail := .listOf [entry1], totalNumberOfPages := some "many" }
     "many" (by decide) (fun k hk1 hk2 => absurd hk1 (by omega)) rfl
     (by decide) rfl (by decide) 1 (by decide)⟩

/-- C6: on a successful page with a non-empty detail list, the loop stops
exactly when the page number has reached the declared total — which
defaults to the current page when the pagination metadata is absent, so
the loop stops then too — and otherwise increments the page counter and
continues with the page's rows appended. -/
theorem c6_pagination_stop (parse : String → Option Date)
    (client : Nat → ClientResult) (fuel page : Nat) (acc : List RawRow)
    (resp : PageResponse) (h : client page = .ok resp)
    (hd : detailsOf resp.feedbackDetail ≠ []) :
    (resp.totalNumberOfPages = none →
      fetchLoop parse client (fuel + 1) page acc =
        some (.ok (acc ++ (detailsOf resp.feedbackDetail).map
          (rawRowOfEntry parse)))) ∧
    (∀ s t, resp.totalNumberOfPages = some s → parsePyInt s = some t →
      ((page : Int) ≥ t →
        fetchLoop parse client (fuel + 1) page acc =
          some (.ok (acc ++ (detailsOf resp.feedbackDetail).map
            (rawRowOfEntry parse)))) ∧
      ((page : Int) < t →
        fetchLoop parse client (fuel + 1) page acc =
          fetchLoop parse client fuel (page + 1)
            (acc ++ (detailsOf resp.feedbackDetail).map
              (rawRowOfEntry parse)))) :=
  ⟨fun hs => fetchLoop_defaultTotal parse client fuel page acc resp h hd hs,
   fun s t hs hp =>
     ⟨fun hge =>
        fetchLoop_stop parse client fuel page acc resp s t h hd hs hp hge,
      fun hlt =>
        fetchLoop_continue parse client fuel page acc resp s t h hd hs hp
          hlt⟩⟩

theorem c6_pagination_stop_witness :
    fetchLoop (fun _ => none) c6client 1 2 [] =
      some (.ok ([] ++ (detailsOf (DetailField.listOf [entry1])).map
        (rawRowOfEntry (fun _ => none)))) ∧
    fetchLoop (fun _ => none) c6client 2 1 [] =
      fetchLoop (fun _ => none) c6client 1 2
        ([] ++ (detailsOf (DetailField.listOf [entry1])).map
          (rawRowOfEntry (fun _ => none))) :=
  ⟨((c6_pagination_stop (fun _ => none) c6client 0 2 []
      { feedbackDetail := .listOf [entry1], totalNumberOfPages := some "2" }
      rfl (by decide)).2 "2" 2 rfl (by decide)).1 (by decide),
   ((c6_pagination_stop (fun _ => none) c6client 1 1 []
      { feedbackDetail := .listOf [entry1], totalNumberOfPages := some "2" }
      rfl (by decide)).2 "2" 2 rfl (by decide)).2 (by decide)⟩

/-- C7: a page whose `FeedbackDetail` is a single object is treated
identically to a one-element collection: two clients that agree up to that
repackaging drive the fetch loop to the same result, whatever the fuel,
page and accumulator. -/
theorem c7_singleton_equiv (parse : String → Option Date)
    (client1 client2 : Nat → ClientResult)
    (h : ∀ k, sameUpToSingleton (client1 k) (client2 k)) :
    ∀ (fuel page : Nat) (acc : List RawRow),
    fetchLoop parse client1 fuel page acc =
      fetchLoop parse client2 fuel page acc := by
  intro fuel
  induction fuel with
  | zero => intro page acc; rfl
  | succ m ih =>
    intro page acc
    have hk := h page
    rcases h1 : client1 page with _ | r1 <;>
      rcases h2 : client2 page with _ | r2 <;> rw [h1, h2] at hk
    · rw [fetchLoop_connError parse client1 m page acc h1,
        fetchLoop_connError parse client2 m page acc h2]
    · exact hk.elim
    · exact hk.elim
    · obtain ⟨htot, hdet⟩ := hk
      have hds : detailsOf r1.feedbackDetail = detailsOf r2.feedbackDetail := by
        rcases hdet with he | ⟨e, he1, he2⟩
        · rw [he]
        · rw [he1, he2]
          rfl
      by_cases hde : detailsOf r2.feedbackDetail = []
      · rw [fetchLoop_emptyDetails parse client1 m page acc r1 h1
            (by rw [hds]; exact hde),
          fetchLoop_emptyDetails parse client2 m page acc r2 h2 hde]
      · have hd1 : detailsOf r1.feedbackDetail ≠ [] := by
          rw [hds]; exact hde
        cases hto : r2.totalNumberOfPages with
        | none =>
          rw [fetchLoop_defaultTotal parse client1 m page acc r1 h1 hd1
              (htot.trans hto),
            fetchLoop_defaultTotal parse client2 m page acc r2 h2 hde hto,
            hds]
        | some s =>
          cases hpi : parsePyInt s with
          | none =>
            rw [fetchLoop_badTotal parse client1 m page acc r1 s h1 hd1
                (htot.trans hto) hpi,
              fetchLoop_badTotal parse client2 m page acc r2 s h2 hde hto hpi]
          | some t =>
            by_cases hge : (page : Int) ≥ t
            · rw [fetchLoop_stop parse client1 m page acc r1 s t h1 hd1
                  (htot.trans hto) hpi hge,
                fetchLoop_stop parse client2 m page acc r2 s t h2 hde hto hpi
                  hge,
                hds]
            · rw [fetchLoop_continue parse client1 m page acc r1 s t h1 hd1
                  (htot.trans hto) hpi (lt_of_not_ge hge),
                fetchLoop_continue parse client2 m page acc r2 s t h2 hde hto
                  hpi (lt_of_not_ge hge),
                hds]
              exact ih (page + 1) _

theorem c7_singleton_equiv_witness :
    (∀ k, sameUpToSingleton (c7clientA k) (c7clientB k)) ∧
    fetchLoop (fun _ => none) c7clientA 1 1 [] =
      fetchLoop (fun _ => none) c7clientB 1 1 [] := by
  have hsame : ∀ k, sameUpToSingleton (c7clientA k) (c7clientB k) := by
    intro k
    by_cases hk : k = 1
    · subst hk
      exact ⟨rfl, Or.inr ⟨entry1, rfl, rfl⟩⟩
    · simp only [c7clientA, c7clientB, if_neg hk]
      trivial
  exact ⟨hsame, c7_singleton_equiv (fun _ => none) c7clientA c7clientB hsame
    1 1 []⟩

theorem foldl_digit_replicate (k : Nat) : ∀ n : Nat,
    List.foldl (fun n c => n * 10 + digitVal c) n
      (List.replicate k '0') = n * 10 ^ k := by
  induction k with
  | zero => intro n; simp
  | succ m ih =>
    intro n
    rw [List.replicate_succ, List.foldl_cons]
    have h0 : digitVal '0' = 0 := by decide
    rw [h0, Nat.add_zero, ih]
    ring

theorem parsePyInt_oneZeros (k : Nat) :
    parsePyInt (oneZeros k) = some ((10 : Int) ^ k) := by
  have hall : ('1' :: List.replicate k '0').all Char.isDigit = true := by
    simp [List.all_eq_true, List.mem_replicate]
  have hpd : parseDigitsNat ('1' :: List.replicate k '0') =
      some (10 ^ k) := by
    rw [parseDigitsNat, if_neg (by simp), if_pos hall, List.foldl_cons]
    have h1 : digitVal '1' = 1 := by decide
    simp only [Nat.zero_mul, Nat.zero_add, h1]
    rw [foldl_digit_replicate, Nat.one_mul]
  show (parseDigitsNat ('1' :: List.replicate k '0')).map
    (fun n => (n : Int)) = some ((10 : Int) ^ k)
  rw [hpd]
  simp

/-- Against `badClient` the loop runs out of any amount of fuel, from any
page: each page is non-empty and declares `10 ^ page > page` total pages. -/
theorem badClient_no_fuel :
    ∀ (fuel page : Nat) (acc : List RawRow),
    fetchLoop (fun _ => none) badClient fuel page acc = none := by
  intro fuel
  induction fuel with
  | zero => intro page acc; rfl
  | succ m ih =>
    intro page acc
    have hlt : (page : Int) < (10 : Int) ^ page := by
      have h1 : page < 10 ^ page := Nat.lt_pow_self (by norm_num) page
      exact_mod_cast h1
    rw [fetchLoop_continue (fun _ => none) badClient m page acc
      { feedbackDetail := .listOf [entry1]
        totalNumberOfPages := some (oneZeros page) }
      (oneZeros page) ((10 : Int) ^ page) rfl (List.cons_ne_nil entry1 [])
      rfl (parsePyInt_oneZeros page) hlt]
    exact ih (page + 1) _

/-- C5 counterexample: against `badClient` — every page succeeds, is
non-empty, and declares a parseable total of `10 ^ page` pages — the fetch
loop never finishes, however much fuel it is given: the declared total
outruns the page counter forever, so the code's loop does not terminate
for every client behaviour. -/
theorem c5_counterexample :
    ¬ ∃ fuel, (fetch_all_feedback (fun _ => none) badClient fuel).isSome := by
  rintro ⟨fuel, hsome⟩
  rw [fetch_all_feedback, badClient_no_fuel fuel 1 []] at hsome
  simp at hsome

/-- With all declared totals bounded by `T`, the loop finishes on `n + 1`
units of fuel from any page `p` with `T ≤ p + n`. -/
theorem fetchLoop_isSome_of_bounded (parse : String → Option Date)
    (client : Nat → ClientResult) (T : Nat)
    (hb : ∀ k resp s t, client k = .ok resp →
      resp.totalNumberOfPages = some s → parsePyInt s = some t →
      t ≤ (T : Int)) :
    ∀ (n p : Nat) (acc : List RawRow), T ≤ p + n →
    (fetchLoop parse client (n + 1) p acc).isSome := by
  intro n
  induction n with
  | zero =>
    intro p acc hT
    cases hcl : client p with
    | connError =>
      rw [fetchLoop_connError parse client 0 p acc hcl]; rfl
    | ok resp =>
      by_cases hd : detailsOf resp.feedbackDetail = []
      · rw [fetchLoop_emptyDetails parse client 0 p acc resp hcl hd]; rfl
      cases hs : resp.totalNumberOfPages with
      | none =>
        rw [fetchLoop_defaultTotal parse client 0 p acc resp hcl hd hs]; rfl
      | some s =>
        cases hp : parsePyInt s with
        | none =>
          rw [fetchLoop_badTotal parse client 0 p acc resp s hcl hd hs hp]
          rfl
        | some t =>
          have hge : (p : Int) ≥ t := by
            have h1 := hb p resp s t hcl hs hp
            omega
          rw [fetchLoop_stop parse client 0 p acc resp s t hcl hd hs hp hge]
          rfl
  | succ m ih =>
    intro p acc hT
    cases hcl : client p with
    | connError =>
      rw [fetchLoop_connError parse client (m + 1) p acc hcl]; rfl
    | ok resp =>
      by_cases hd : detailsOf resp.feedbackDetail = []
      · rw [fetchLoop_emptyDetails parse client (m + 1) p acc resp hcl hd]
        rfl
      cases hs : resp.totalNumberOfPages with
      | none =>
        rw [fetchLoop_defaultTotal parse client (m + 1) p acc resp hcl hd hs]
        rfl
      | some s =>
        cases hp : parsePyInt s with
        | none =>
          rw [fetchLoop_badTotal parse client (m + 1) p acc resp s hcl hd hs
            hp]
          rfl
        | some t =>
          by_cases hge : (p : Int) ≥ t
          · rw [fetchLoop_stop parse client (m + 1) p acc resp s t hcl hd hs
              hp hge]
            rfl
          · rw [fetchLoop_continue parse client (m + 1) p acc resp s t hcl hd
              hs hp (lt_of_not_ge hge)]
            exact ih (p + 1) _ (by omega)

/-- C5 amended: the loop cannot be shown to terminate for every client
behaviour (see the counterexample), but it does terminate for every client
whose declared total page counts are bounded: if every parseable declared
total is at most `T`, fuel `T + 1` completes the fetch — covering in
particular every client honest about a fixed finite feedback list.
Exhausting declared pages, an empty page, a transport error and an
unparseable total are all final. -/
theorem c5_bounded_termination (parse : String → Option Date)
    (client : Nat → ClientResult) (T : Nat)
    (hb : ∀ k resp s t, client k = .ok resp →
      resp.totalNumberOfPages = some s → parsePyInt s = some t →
      t ≤ (T : Int)) :
    (fetch_all_feedback parse client (T + 1)).isSome :=
  fetchLoop_isSome_of_bounded parse client T hb T 1 [] (by omega)

theorem c5_bounded_termination_witness :
    (∀ k resp s t, c6client k = ClientResult.ok resp →
      resp.totalNumberOfPages = some s → parsePyInt s = some t →
      t ≤ ((2 : Nat) : Int)) ∧
    (fetch_all_feedback (fun _ => none) c6client 3).isSome := by
  have hb : ∀ k resp s t, c6client k = ClientResult.ok resp →
      resp.totalNumberOfPages = some s → parsePyInt s = some t →
      t ≤ ((2 : Nat) : Int) := by
    intro k resp s t h1 h2 h3
    have h1b : ClientResult.ok c6resp = ClientResult.ok resp := h1
    injection h1b with h4
    subst h4
    have h2b : some "2" = some s := h2
    injection h2b with h5
    subst h5
    have h6 : parsePyInt "2" = some 2 := by decide
    rw [h6] at h3
    injection h3 with h7
    subst h7
    norm_num
  exact ⟨hb, c5_bounded_termination (fun _ => none) c6client 2 hb⟩
